import Mathlib

/-!
# Verification of the ClaudeDev agent orchestration loop

Shallow embedding of the `ClaudeDev` class that drives the agent task loop:
the canonical message model, the tool executors with their required-parameter
validation, the request-limit gate, the context-overflow guard of
`attemptApiRequest`, the resume-from-history reconciliation and the blocking
`ask` primitive. Pure computations are translated directly; external
collaborators (the user answering asks, the filesystem, Node path/diff
libraries, the ICU collator behind `localeCompare`, VS Code, subprocesses)
are passed in as explicit environment parameters, and observable side effects
are recorded as an event trace.
-/

namespace ClaudeDev

/-- Models JavaScript `String.prototype.endsWith` (restricted to whole-string
suffix tests, which is how the source uses it). -/
def jsEndsWith (s t : String) : Bool := t.data.isSuffixOf s.data

/-- JavaScript truthiness of an optional string: `undefined` and the empty
string are falsy. -/
def jsTruthy (o : Option String) : Bool :=
  match o with
  | some s => s ≠ ""
  | none => false

/-- JavaScript template-literal interpolation of a possibly-undefined string:
`undefined` renders as the literal text `undefined`. -/
def jsTemplate (o : Option String) : String := o.getD "undefined"

/-- Verdict vocabulary of a webview ask response (`ClaudeAskResponse`). -/
inductive AskResponse
  | yesButtonTapped
  | messageResponse
  | noButtonTapped
deriving DecidableEq

/-- The outcome of one blocking ask: the verdict plus the optional free-text
and images typed by the user. -/
structure AskOutcome where
  response : AskResponse
  text : Option String := none
  images : Option (List String) := none
deriving DecidableEq

/-- `Anthropic.TextBlockParam` or `Anthropic.ImageBlockParam`, the block kinds
a tool response may carry besides a plain string. -/
inductive TextOrImage
  | text (text : String)
  | image (mediaType data : String)
deriving DecidableEq

/-- `ToolResponse = string | Array<TextBlockParam | ImageBlockParam>`. -/
inductive ToolResponse
  | str (s : String)
  | blocks (bs : List TextOrImage)
deriving DecidableEq

/-- The input object of a tool-use block; every field is optional because
validation happens inside each executor, not at the model layer. -/
structure ToolInput where
  path : Option String := none
  content : Option String := none
  command : Option String := none
  question : Option String := none
  result : Option String := none
deriving DecidableEq

/-- Content blocks of an API conversation message. -/
inductive ContentBlock
  | text (text : String)
  | image (mediaType data : String)
  | toolUse (id name : String) (input : ToolInput)
  | toolResult (toolUseId : String) (content : ToolResponse)
deriving DecidableEq

/-- Message roles of the API conversation. -/
inductive Role
  | user
  | assistant
deriving DecidableEq

/-- `MessageParam.content` is `string | ContentBlock[]`. -/
inductive MessageContent
  | str (s : String)
  | blocks (bs : List ContentBlock)
deriving DecidableEq

/-- One message of the persisted API conversation history
(`Anthropic.MessageParam`). -/
structure MessageParam where
  role : Role
  content : MessageContent
deriving DecidableEq

/-- Observable side effects of the orchestrator and the tool executors. -/
inductive Event
  | say (type : String) (text : Option String) (images : Option (List String))
  | ask (type : String) (question : Option String)
  | fsWrite (path content : String)
  | fsMkdir (path : String)
  | showDiffView (title : String)
  | showTextDocument (path : String)
  | closeDiffViews
  | spawnProcess (command : String)
  | listFilesCall (path : String) (recursive : Bool)
  | parseDefsCall (path : String)
  | persistApiHistory (history : List MessageParam)
  | createMessageCall
deriving DecidableEq

/-! ## formatFilesList (src/unnamed/part_001, lines 782-808) -/

/-- One step of the mapping in `formatFilesList`: convert an absolute file
path to a relative one, restoring the trailing slash that marks a directory.
`relative` models Node's `path.relative(absolutePath, file)`, an external
path-algebra collaborator. -/
def toRelativeEntry (relative : String → String) (file : String) : String :=
  if jsEndsWith file "/" then relative file ++ "/" else relative file

/-- The comparator of `formatFilesList` as a sort order: directories sort
before files, ties broken by `localeCompare` with numeric collation (the ICU
collator is an external collaborator, modelled as an integer-valued
comparison as in JavaScript). -/
def entryLE (localeCompare : String → String → Int) (a b : String) : Bool :=
  let aIsDir := jsEndsWith a "/"
  let bIsDir := jsEndsWith b "/"
  if aIsDir ≠ bIsDir then aIsDir else localeCompare a b ≤ 0

/-- The sorted relative-entry list built by `formatFilesList`; JavaScript's
`Array.prototype.sort` with a comparator is modelled as a stable merge sort
over the comparator's order. -/
def sortedEntries (localeCompare : String → String → Int)
    (relative : String → String) (files : List String) : List String :=
  (files.map (toRelativeEntry relative)).mergeSort (entryLE localeCompare)

/-- The fixed message for an empty or unreadable directory. -/
def noFilesMessage : String :=
  "No files found or you do not have permission to view this directory."

/-- The truncation notice appended after the first 1000 entries. -/
def truncationNotice (remainingCount : Nat) : String :=
  "\n\n(" ++ toString remainingCount ++
    " files not listed due to automatic truncation. Try listing files in subdirectories if you need to explore further.)"

/-- `ClaudeDev.formatFilesList` (src/unnamed/part_001, lines 782-808). -/
def formatFilesList (localeCompare : String → String → Int)
    (relative : String → String) (files : List String) : String :=
  let sorted := sortedEntries localeCompare relative files
  if sorted.length > 1000 then
    String.intercalate "\n" (sorted.take 1000) ++ truncationNotice (sorted.length - 1000)
  else if sorted.length = 0 ∨ (sorted.length = 1 ∧ sorted.head? = some "") then
    noFilesMessage
  else
    String.intercalate "\n" sorted

theorem sortedEntries_length (localeCompare : String → String → Int)
    (relative : String → String) (files : List String) :
    (sortedEntries localeCompare relative files).length = files.length := by
  unfold sortedEntries
  rw [(List.mergeSort_perm (files.map (toRelativeEntry relative))
    (entryLE localeCompare)).length_eq]
  exact List.length_map files (toRelativeEntry relative)

/-- Claim C6: with more than 1000 entries, `formatFilesList` returns the
newline-join of exactly the first 1000 sorted entries followed by the
truncation notice; the empty list, and a singleton list whose mapped entry is
the empty string (the unreadable-directory shape), yield the fixed
no-files message. -/
theorem formatFilesList_truncation_and_empty
    (localeCompare : String → String → Int) (relative : String → String)
    (files : List String) (f : String)
    (hbig : files.length > 1000) (hempty : toRelativeEntry relative f = "") :
    (formatFilesList localeCompare relative files =
        String.intercalate "\n" ((sortedEntries localeCompare relative files).take 1000) ++
          truncationNotice (files.length - 1000) ∧
      ((sortedEntries localeCompare relative files).take 1000).length = 1000) ∧
    formatFilesList localeCompare relative [] = noFilesMessage ∧
    formatFilesList localeCompare relative [f] = noFilesMessage := by
  have hlen := sortedEntries_length localeCompare relative files
  refine ⟨⟨?_, ?_⟩, ?_, ?_⟩
  · unfold formatFilesList
    rw [if_pos (by omega)]
    rw [hlen]
  · rw [List.length_take, hlen]
    omega
  · have hnil : sortedEntries localeCompare relative [] = [] := by
      simp [sortedEntries]
    unfold formatFilesList
    rw [hnil]
    rfl
  · have hsort : sortedEntries localeCompare relative [f] = [""] := by
      simp [sortedEntries, hempty]
    unfold formatFilesList
    rw [hsort]
    rfl

/-! ## Resume-from-history reconciliation (src/unnamed/part_001, lines 254-422) -/

/-- The placeholder content synthesized for a tool call that was interrupted
before completing. -/
def interruptedToolResultText : String :=
  "Task was interrupted before this tool call could be completed."

/-- Block-type test `block.type === "tool_use"`. -/
def isToolUseBlock : ContentBlock → Bool
  | .toolUse _ _ _ => true
  | _ => false

/-- Block-type test `block.type === "text"`. -/
def isTextBlock : ContentBlock → Bool
  | .text _ => true
  | _ => false

/-- Block-type test `block.type === "tool_result"`. -/
def isToolResultBlock : ContentBlock → Bool
  | .toolResult _ _ => true
  | _ => false

/-- Whether a block is a tool result for the given tool-use id
(`result.tool_use_id === toolUse.id`). -/
def isToolResultFor (id : String) : ContentBlock → Bool
  | .toolResult rid _ => rid = id
  | _ => false

/-- The ids of the tool-use blocks of a content list, in order. -/
def toolUseIds (content : List ContentBlock) : List String :=
  content.filterMap fun b =>
    match b with
    | .toolUse id _ _ => some id
    | _ => none

/-- `Array.isArray(content) ? content : [{ type: "text", text: content }]`. -/
def normalizeContent : MessageContent → List ContentBlock
  | .str s => [.text s]
  | .blocks bs => bs

/-- The synthesized placeholder result for one interrupted tool-use block. -/
def mkInterruptedResult : ContentBlock → Option ContentBlock
  | .toolUse id _ _ => some (.toolResult id (.str interruptedToolResultText))
  | _ => none

/-- The API-history reconciliation step of `resumeTaskFromHistory`
(src/unnamed/part_001, lines 305-380): restore the tool-use/tool-result
pairing on the last persisted message, returning the (possibly trimmed)
history together with `modifiedOldUserContent`. -/
def reconcileApiHistory (hist : List MessageParam) :
    Except String (List MessageParam × List ContentBlock) :=
  match hist.getLast? with
  | none => .error "Unexpected: No existing API conversation history"
  | some lastMessage =>
    match lastMessage.role with
    | .assistant =>
      let content := normalizeContent lastMessage.content
      if content.any isToolUseBlock then
        let toolUseBlocks := content.filter isToolUseBlock
        let toolResponses := toolUseBlocks.filterMap mkInterruptedResult
        .ok (hist, toolResponses)
      else
        .ok (hist, [])
    | .user =>
      let existingUserContent := normalizeContent lastMessage.content
      match hist.dropLast.getLast? with
      | some previousAssistantMessage =>
        if previousAssistantMessage.role = .assistant then
          let assistantContent := normalizeContent previousAssistantMessage.content
          let toolUseBlocks := assistantContent.filter isToolUseBlock
          if toolUseBlocks.length > 0 then
            let existingToolResults := existingUserContent.filter isToolResultBlock
            let missingToolResponses := toolUseBlocks.filterMap fun b =>
              match b with
              | .toolUse id _ _ =>
                  if existingToolResults.any (isToolResultFor id) then none
                  else some (ContentBlock.toolResult id (.str interruptedToolResultText))
              | _ => none
            .ok (hist.dropLast, existingUserContent ++ missingToolResponses)
          else
            .ok (hist.dropLast, existingUserContent)
        else
          .ok (hist.dropLast, existingUserContent)
      | none => .ok (hist.dropLast, existingUserContent)

/-- `content.find(block => block.type === "text")?.text`. -/
def firstTextOf (content : List ContentBlock) : Option String :=
  content.findSome? fun b =>
    match b with
    | .text t => some t
    | _ => none

/-- The `combinedText` of the resumption prompt (src/unnamed/part_001,
lines 406-414). `agoText`, the working directory and the
potentially-relevant-details blob come from external collaborators (the
clock and the editor). -/
def resumptionCombinedText (agoText cwdStr : String)
    (modifiedOldUserContentText newUserContentText : Option String)
    (details : String) : String :=
  "Task resumption: This autonomous coding task was interrupted " ++ agoText ++
    ". It may or may not be complete, so please reassess the task context. Be aware that the project state may have changed since then. The current working directory is now " ++
    cwdStr ++
    ". If the task has not been completed, retry the last step before interruption and proceed with completing the task." ++
  (if jsTruthy modifiedOldUserContentText then
      "\n\nLast recorded user input before interruption:\n<previous_message>\n" ++
        modifiedOldUserContentText.getD "" ++ "\n</previous_message>\n"
    else "") ++
  (if jsTruthy newUserContentText then
      "\n\nNew instructions for task continuation:\n<user_message>\n" ++
        newUserContentText.getD "" ++ "\n</user_message>\n"
    else "") ++
  "\n\n" ++ details

/-- The synthesized next user message (src/unnamed/part_001, lines 416-418):
the non-text blocks of the reconciled old user content followed by exactly
one combined text block. -/
def combinedUserContent (modifiedOldUserContent : List ContentBlock)
    (combinedText : String) : List ContentBlock :=
  modifiedOldUserContent.filter (fun b => !isTextBlock b) ++ [.text combinedText]

/-- End-to-end reconciliation of `resumeTaskFromHistory` as it affects the
API conversation (src/unnamed/part_001, lines 305-421): reconcile the
persisted history, then build the next user message from the reconciled old
user content and the user's new resume input. -/
def resumeReconcile (hist : List MessageParam) (newUserContent : List ContentBlock)
    (agoText cwdStr details : String) :
    Except String (List MessageParam × List ContentBlock) :=
  match reconcileApiHistory hist with
  | .error e => .error e
  | .ok (modifiedHist, modifiedOldUserContent) =>
    let combinedText := resumptionCombinedText agoText cwdStr
      (firstTextOf modifiedOldUserContent) (firstTextOf newUserContent) details
    .ok (modifiedHist, combinedUserContent modifiedOldUserContent combinedText)

theorem filter_toolUse_filterMap_interrupted (blocks : List ContentBlock) :
    (blocks.filter isToolUseBlock).filterMap mkInterruptedResult =
      (toolUseIds blocks).map
        (fun id => ContentBlock.toolResult id (.str interruptedToolResultText)) := by
  induction blocks with
  | nil => rfl
  | cons b bs ih =>
    cases b <;> simp [toolUseIds, isToolUseBlock, mkInterruptedResult,
      List.filter_cons, List.filterMap_cons] at * <;> simp [ih, toolUseIds]

theorem toolUseIds_ne_nil_any (blocks : List ContentBlock)
    (h : toolUseIds blocks ≠ []) : blocks.any isToolUseBlock = true := by
  rw [List.any_eq_true]
  by_contra hc
  push_neg at hc
  apply h
  unfold toolUseIds
  rw [List.filterMap_eq_nil_iff]
  intro b hb
  cases b with
  | toolUse id name input => exact absurd rfl (hc _ hb)
  | text t => rfl
  | image m d => rfl
  | toolResult rid c => rfl

theorem firstTextOf_map_interrupted (ids : List String) :
    firstTextOf (ids.map
      (fun id => ContentBlock.toolResult id (.str interruptedToolResultText))) = none := by
  induction ids with
  | nil => rfl
  | cons i is ih =>
    simp only [List.map_cons, firstTextOf, List.findSome?_cons] at *
    exact ih

theorem nodup_filter_eq_length_one {ids : List String} {id : String}
    (hnodup : ids.Nodup) (hid : id ∈ ids) :
    (ids.filter (fun i => i = id)).length = 1 := by
  induction ids with
  | nil => simp at hid
  | cons a as ih =>
    rw [List.nodup_cons] at hnodup
    rcases List.mem_cons.1 hid with heq | hmem
    · subst heq
      have hrest : as.filter (fun i => i = id) = [] := by
        apply List.filter_eq_nil_iff.2
        intro b hb
        simp only [decide_eq_true_eq]
        intro hba
        exact hnodup.1 (hba ▸ hb)
      simp [List.filter_cons, hrest]
    · have hne : ¬ (a = id) := fun hEq => hnodup.1 (hEq ▸ hmem)
      simp [List.filter_cons, hne, ih hnodup.2 hmem]

theorem filter_toolResultFor_map_interrupted (ids : List String) (id : String) :
    ((ids.map (fun i => ContentBlock.toolResult i (.str interruptedToolResultText))).filter
        (isToolResultFor id)).length = (ids.filter (fun i => i = id)).length := by
  induction ids with
  | nil => rfl
  | cons i is ih =>
    by_cases hi : i = id <;>
      simp [List.filter_cons, isToolResultFor, hi, ih]

/-- Claim C1: when the persisted API history ends in an assistant message
containing tool-use blocks (with the usual distinct ids) and no following
user message, the reconciliation keeps the history and produces a next user
message made of exactly one interrupted tool-result per tool-use id followed
by a single merged resumption-prompt text block. -/
theorem resumeReconcile_restores_pairing
    (h : List MessageParam) (blocks : List ContentBlock)
    (newUserContent : List ContentBlock) (agoText cwdStr details : String)
    (htu : toolUseIds blocks ≠ []) (hnodup : (toolUseIds blocks).Nodup) :
    resumeReconcile (h ++ [⟨.assistant, .blocks blocks⟩]) newUserContent
        agoText cwdStr details =
      .ok (h ++ [⟨.assistant, .blocks blocks⟩],
        (toolUseIds blocks).map
            (fun id => ContentBlock.toolResult id (.str interruptedToolResultText)) ++
          [.text (resumptionCombinedText agoText cwdStr none
            (firstTextOf newUserContent) details)]) ∧
    (∀ id ∈ toolUseIds blocks,
      (((toolUseIds blocks).map
            (fun i => ContentBlock.toolResult i (.str interruptedToolResultText)) ++
          [ContentBlock.text (resumptionCombinedText agoText cwdStr none
            (firstTextOf newUserContent) details)]).filter
          (isToolResultFor id)).length = 1) ∧
    (((toolUseIds blocks).map
          (fun i => ContentBlock.toolResult i (.str interruptedToolResultText)) ++
        [ContentBlock.text (resumptionCombinedText agoText cwdStr none
          (firstTextOf newUserContent) details)]).filter isTextBlock).length = 1 := by
  have hany : blocks.any isToolUseBlock = true := toolUseIds_ne_nil_any blocks htu
  have hrec : reconcileApiHistory (h ++ [⟨.assistant, .blocks blocks⟩]) =
      .ok (h ++ [⟨.assistant, .blocks blocks⟩],
        (toolUseIds blocks).map
          (fun id => ContentBlock.toolResult id (.str interruptedToolResultText))) := by
    simp [reconcileApiHistory, List.getLast?_concat, normalizeContent, hany,
      filter_toolUse_filterMap_interrupted]
  have hfirst : firstTextOf ((toolUseIds blocks).map
      (fun id => ContentBlock.toolResult id (.str interruptedToolResultText))) = none :=
    firstTextOf_map_interrupted (toolUseIds blocks)
  have hfilter : ((toolUseIds blocks).map
      (fun id => ContentBlock.toolResult id (.str interruptedToolResultText))).filter
        (fun b => !isTextBlock b) =
      (toolUseIds blocks).map
        (fun id => ContentBlock.toolResult id (.str interruptedToolResultText)) := by
    apply List.filter_eq_self.2
    intro b hb
    simp [List.mem_map] at hb
    obtain ⟨i, _, rfl⟩ := hb
    rfl
  refine ⟨?_, ?_, ?_⟩
  · simp [resumeReconcile, hrec, combinedUserContent, hfirst, hfilter]
  · intro id hid
    rw [List.filter_append, List.length_append,
      filter_toolResultFor_map_interrupted]
    have hlast : (List.filter (isToolResultFor id)
        [ContentBlock.text (resumptionCombinedText agoText cwdStr none
          (firstTextOf newUserContent) details)]).length = 0 := by
      simp [isToolResultFor]
    rw [hlast]
    have hcount : ((toolUseIds blocks).filter (fun i => i = id)).length = 1 :=
      nodup_filter_eq_length_one hnodup hid
    omega
  · rw [List.filter_append, List.length_append]
    have h1 : ((toolUseIds blocks).map
        (fun id => ContentBlock.toolResult id (.str interruptedToolResultText))).filter
          isTextBlock = [] := by
      apply List.filter_eq_nil_iff.2
      intro b hb
      simp [List.mem_map] at hb
      obtain ⟨i, _, rfl⟩ := hb
      simp [isTextBlock]
    rw [h1]
    simp [isTextBlock]

/-- Witness for C1 at a concrete two-tool-call history. -/
theorem resumeReconcile_restores_pairing_witness :
    toolUseIds [ContentBlock.toolUse "toolu_1" "read_file" {},
        ContentBlock.toolUse "toolu_2" "write_to_file" {}] ≠ [] ∧
    (toolUseIds [ContentBlock.toolUse "toolu_1" "read_file" {},
        ContentBlock.toolUse "toolu_2" "write_to_file" {}]).Nodup ∧
    resumeReconcile [⟨.assistant, .blocks [ContentBlock.toolUse "toolu_1" "read_file" {},
        ContentBlock.toolUse "toolu_2" "write_to_file" {}]⟩] [] "just now" "/w" "d" =
      .ok ([⟨.assistant, .blocks [ContentBlock.toolUse "toolu_1" "read_file" {},
          ContentBlock.toolUse "toolu_2" "write_to_file" {}]⟩],
        [ContentBlock.toolResult "toolu_1" (.str interruptedToolResultText),
         ContentBlock.toolResult "toolu_2" (.str interruptedToolResultText),
         ContentBlock.text (resumptionCombinedText "just now" "/w" none none "d")]) := by
  have h := resumeReconcile_restores_pairing []
    [ContentBlock.toolUse "toolu_1" "read_file" {},
     ContentBlock.toolUse "toolu_2" "write_to_file" {}] [] "just now" "/w" "d"
    (by decide) (by decide)
  refine ⟨by decide, by decide, ?_⟩
  have h1 := h.1
  simpa [toolUseIds, List.filterMap_cons, firstTextOf] using h1

/-! ## Tool executors (src/unnamed/part_001, lines 461-992) -/

/-- The machine-readable error string returned for a missing required tool
parameter. -/
def missingParamError (paramName : String) : String :=
  "Error: Missing value for required parameter '" ++ paramName ++
    "'. Please retry with complete response."

/-- The user-visible error text emitted alongside a missing-parameter error. -/
def missingParamSayText (toolName paramName : String) : String :=
  "Claude tried to use " ++ toolName ++ " without value for required parameter '" ++
    paramName ++ "'. Retrying..."

/-- The mime type extracted from a data url
(`rest.split(":")[1].split(";")[0]` after `dataUrl.split(",")`). -/
def mimeTypeOf (dataUrl : String) : String :=
  ((((dataUrl.splitOn ",").headD "").splitOn ":").getD 1 "").splitOn ";" |>.headD ""

/-- The base64 payload of a data url (`dataUrl.split(",")[1]`). -/
def base64Of (dataUrl : String) : String := (dataUrl.splitOn ",").getD 1 ""

/-- `ClaudeDev.formatImagesIntoBlocks` (src/unnamed/part_001, lines 217-228). -/
def formatImagesIntoBlocks (images : Option (List String)) : List TextOrImage :=
  (images.getD []).map fun dataUrl => .image (mimeTypeOf dataUrl) (base64Of dataUrl)

/-- `ClaudeDev.formatIntoToolResponse` (src/unnamed/part_001, lines 230-238). -/
def formatIntoToolResponse (text : String) (images : Option (List String)) :
    ToolResponse :=
  match images with
  | some imgs =>
      if imgs.length > 0 then .blocks (.text text :: formatImagesIntoBlocks (some imgs))
      else .str text
  | none => .str text

/-- `ClaudeDev.formatGenericToolFeedback` (src/unnamed/part_001,
lines 1218-1220). -/
def formatGenericToolFeedback (feedback : Option String) (details : String) : String :=
  "The user denied this operation and provided the following feedback:\n<feedback>\n" ++
    jsTemplate feedback ++ "\n</feedback>\n\n" ++ details

/-- Abstraction of the `JSON.stringify` of a `ClaudeSayTool` payload sent with
a blocking tool ask: the serialized text is opaque to the orchestrator, only
the fields matter, so they are concatenated with separators. -/
def serializeToolAsk (tool path content : String) : String :=
  "ClaudeSayTool(" ++ tool ++ ", " ++ path ++ ", " ++ content ++ ")"

/-- How one subprocess run ends, as observed by `executeCommand`:
normal completion, user interruption via SIGINT, or a thrown error. -/
inductive CommandOutcome
  | completed (output : String)
  | sigint (output : String)
  | failed (message : String)
deriving DecidableEq

/-- External collaborators of the tool executors: the user answering asks,
the filesystem, Node path and diff libraries, the ICU collator, VS Code and
the subprocess runner. Each executor call is deterministic given this
environment. `ioError` models an exception thrown inside an executor's `try`
block (caught and serialized by its `catch`). -/
structure ToolEnv where
  askOutcome : String → AskOutcome
  fileExists : String → Bool
  fileContent : String → String
  resolvePath : String → String
  readablePath : String → String
  baseName : String → String
  dirName : String → String
  createPatch : String → String → String → String
  diffLinesRepr : String → String → String
  listFilesResult : String → Bool → List String
  parseDefsResult : String → String
  localeCompare : String → String → Int
  pathRelative : String → String → String
  commandOutcome : CommandOutcome
  ioError : Option String
  details : String

/-- The approval-denial pattern repeated inline after the blocking tool ask of
each read-only executor and of `executeCommand` (e.g. src/unnamed/part_001,
lines 665-671): free-text feedback is surfaced as `user_feedback` and wrapped,
a plain rejection yields the fixed denial string, approval yields the prepared
success result. -/
def approvalGate (o : AskOutcome) (details : String) (successResult : ToolResponse) :
    List Event × ToolResponse :=
  if o.response ≠ AskResponse.yesButtonTapped then
    if o.response = AskResponse.messageResponse then
      ([.say "user_feedback" o.text o.images],
       formatIntoToolResponse (formatGenericToolFeedback o.text details) o.images)
    else
      ([], .str "The user denied this operation.")
  else
    ([], successResult)

/-- `ClaudeDev.writeToFile` (src/unnamed/part_001, lines 506-635). -/
def writeToFile (env : ToolEnv) (relPath newContent0 : Option String)
    (isLast : Bool := true) : List Event × ToolResponse :=
  match relPath with
  | none =>
      ([.say "error" (some (missingParamSayText "write_to_file" "path")) none],
       .str (missingParamError "path"))
  | some relPath =>
    match newContent0 with
    | none =>
        ([.say "error" (some ("Claude tried to use write_to_file for '" ++ relPath ++
            "' without value for required parameter 'content'. This is likely due to output token limits. Retrying...")) none],
         .str (missingParamError "content"))
    | some newContent0 =>
      match env.ioError with
      | some msg =>
          ([.say "error" (some ("Error writing file:\n" ++ msg)) none],
           .str ("Error writing file: " ++ msg))
      | none =>
        let absolutePath := env.resolvePath relPath
        let closeEvs : List Event := if isLast then [.closeDiffViews] else []
        if env.fileExists absolutePath then
          let originalContent := env.fileContent absolutePath
          -- fix issue where claude always removes newline from the file
          let newContent :=
            if jsEndsWith originalContent "\n" && !jsEndsWith newContent0 "\n" then
              newContent0 ++ "\n"
            else newContent0
          let diffResult := env.createPatch absolutePath originalContent newContent
          let diffRepresentation := env.diffLinesRepr originalContent newContent
          let fileName := env.baseName absolutePath
          let askEvs : List Event :=
            [.showDiffView (fileName ++ ": Original ↔ Suggested Changes"),
             .ask "tool" (some (serializeToolAsk "editedExistingFile"
               (env.readablePath relPath) diffRepresentation))]
          let o := env.askOutcome "tool"
          if o.response ≠ AskResponse.yesButtonTapped then
            if o.response = AskResponse.messageResponse then
              (askEvs ++ closeEvs ++ [.say "user_feedback" o.text o.images],
               formatIntoToolResponse (formatGenericToolFeedback o.text env.details)
                 o.images)
            else
              (askEvs ++ closeEvs, .str "The user denied this operation.")
          else
            (askEvs ++ [.fsWrite absolutePath newContent,
              .showTextDocument absolutePath] ++ closeEvs,
             .str ("Changes applied to " ++ relPath ++ ":\n" ++ diffResult))
        else
          let fileName := env.baseName absolutePath
          let askEvs : List Event :=
            [.showDiffView (fileName ++ ": New File"),
             .ask "tool" (some (serializeToolAsk "newFileCreated"
               (env.readablePath relPath) newContent0))]
          let o := env.askOutcome "tool"
          if o.response ≠ AskResponse.yesButtonTapped then
            if o.response = AskResponse.messageResponse then
              (askEvs ++ closeEvs ++ [.say "user_feedback" o.text o.images],
               formatIntoToolResponse (formatGenericToolFeedback o.text env.details)
                 o.images)
            else
              (askEvs ++ closeEvs, .str "The user denied this operation.")
          else
            (askEvs ++ [.fsMkdir (env.dirName absolutePath),
              .fsWrite absolutePath newContent0, .showTextDocument absolutePath] ++
                closeEvs,
             .str ("New file created and content written to " ++ relPath))

/-- `ClaudeDev.readFile` (src/unnamed/part_001, lines 650-681). -/
def readFile (env : ToolEnv) (relPath : Option String) : List Event × ToolResponse :=
  match relPath with
  | none =>
      ([.say "error" (some (missingParamSayText "read_file" "path")) none],
       .str (missingParamError "path"))
  | some relPath =>
    match env.ioError with
    | some msg =>
        ([.say "error" (some ("Error reading file:\n" ++ msg)) none],
         .str ("Error reading file: " ++ msg))
    | none =>
      let absolutePath := env.resolvePath relPath
      let content := env.fileContent absolutePath
      let askEv : Event := .ask "tool"
        (some (serializeToolAsk "readFile" (env.readablePath relPath) content))
      let (gateEvs, res) := approvalGate (env.askOutcome "tool") env.details
        (.str content)
      (askEv :: gateEvs, res)

/-- `ClaudeDev.listFilesTopLevel` (src/unnamed/part_001, lines 683-721). -/
def listFilesTopLevel (env : ToolEnv) (relDirPath : Option String) :
    List Event × ToolResponse :=
  match relDirPath with
  | none =>
      ([.say "error" (some (missingParamSayText "list_files_top_level" "path")) none],
       .str (missingParamError "path"))
  | some relDirPath =>
    match env.ioError with
    | some msg =>
        ([.say "error" (some ("Error listing files and directories:\n" ++ msg)) none],
         .str ("Error listing files and directories: " ++ msg))
    | none =>
      let absolutePath := env.resolvePath relDirPath
      let files := env.listFilesResult absolutePath false
      let result := formatFilesList env.localeCompare (env.pathRelative absolutePath)
        files
      let evs : List Event := [.listFilesCall absolutePath false,
        .ask "tool" (some (serializeToolAsk "listFilesTopLevel"
          (env.readablePath relDirPath) result))]
      let (gateEvs, res) := approvalGate (env.askOutcome "tool") env.details
        (.str result)
      (evs ++ gateEvs, res)

/-- `ClaudeDev.listFilesRecursive` (src/unnamed/part_001, lines 723-759). -/
def listFilesRecursive (env : ToolEnv) (relDirPath : Option String) :
    List Event × ToolResponse :=
  match relDirPath with
  | none =>
      ([.say "error" (some (missingParamSayText "list_files_recursive" "path")) none],
       .str (missingParamError "path"))
  | some relDirPath =>
    match env.ioError with
    | some msg =>
        ([.say "error" (some ("Error listing files recursively:\n" ++ msg)) none],
         .str ("Error listing files recursively: " ++ msg))
    | none =>
      let absolutePath := env.resolvePath relDirPath
      let files := env.listFilesResult absolutePath true
      let result := formatFilesList env.localeCompare (env.pathRelative absolutePath)
        files
      let evs : List Event := [.listFilesCall absolutePath true,
        .ask "tool" (some (serializeToolAsk "listFilesRecursive"
          (env.readablePath relDirPath) result))]
      let (gateEvs, res) := approvalGate (env.askOutcome "tool") env.details
        (.str result)
      (evs ++ gateEvs, res)

/-- `ClaudeDev.viewSourceCodeDefinitionsTopLevel` (src/unnamed/part_001,
lines 810-847). -/
def viewSourceCodeDefinitionsTopLevel (env : ToolEnv) (relDirPath : Option String) :
    List Event × ToolResponse :=
  match relDirPath with
  | none =>
      ([.say "error" (some (missingParamSayText "view_source_code_definitions_top_level"
          "path")) none],
       .str (missingParamError "path"))
  | some relDirPath =>
    match env.ioError with
    | some msg =>
        ([.say "error" (some ("Error parsing source code definitions:\n" ++ msg)) none],
         .str ("Error parsing source code definitions: " ++ msg))
    | none =>
      let absolutePath := env.resolvePath relDirPath
      let result := env.parseDefsResult absolutePath
      let evs : List Event := [.parseDefsCall absolutePath,
        .ask "tool" (some (serializeToolAsk "viewSourceCodeDefinitionsTopLevel"
          (env.readablePath relDirPath) result))]
      let (gateEvs, res) := approvalGate (env.askOutcome "tool") env.details
        (.str result)
      (evs ++ gateEvs, res)

/-- `ClaudeDev.executeCommand` (src/unnamed/part_001, lines 849-948). The
interactive output-streaming asks are concurrent behaviour and are not
modelled; the subprocess's accumulated output and termination mode come from
the environment's `commandOutcome`. -/
def executeCommand (env : ToolEnv) (command : Option String)
    (returnEmptyStringOnSuccess : Bool := false) : List Event × ToolResponse :=
  match command with
  | none =>
      ([.say "error" (some (missingParamSayText "execute_command" "command")) none],
       .str (missingParamError "command"))
  | some command =>
    let askEv : Event := .ask "command" (some command)
    let o := env.askOutcome "command"
    if o.response ≠ AskResponse.yesButtonTapped then
      if o.response = AskResponse.messageResponse then
        ([askEv, .say "user_feedback" o.text o.images],
         formatIntoToolResponse (formatGenericToolFeedback o.text env.details) o.images)
      else
        ([askEv], .str "The user denied this operation.")
    else
      match env.commandOutcome with
      | .failed msg =>
          ([askEv, .spawnProcess command,
            .say "error" (some ("Error executing command:\n" ++ msg)) none],
           .str ("Error executing command:\n" ++ msg))
      | .sigint output =>
          let result := output ++
            "\n====\nUser terminated command process via SIGINT. This is not an error. Please continue with your task, but keep in mind that the command is no longer running. For example, if this command was used to start a server for a react app, the server is no longer running and you cannot open a browser to view it anymore."
          ([askEv, .spawnProcess command,
            .say "command_output" (some "\nUser exited command...") none],
           if returnEmptyStringOnSuccess then .str ""
           else .str ("Command Output:\n" ++ result))
      | .completed output =>
          ([askEv, .spawnProcess command],
           if returnEmptyStringOnSuccess then .str ""
           else .str ("Command Output:\n" ++ output))

/-- `ClaudeDev.askFollowupQuestion` (src/unnamed/part_001, lines 950-961). -/
def askFollowupQuestion (env : ToolEnv) (question : Option String) :
    List Event × ToolResponse :=
  match question with
  | none =>
      ([.say "error" (some (missingParamSayText "ask_followup_question" "question"))
          none],
       .str (missingParamError "question"))
  | some question =>
    let o := env.askOutcome "followup"
    ([.ask "followup" (some question),
      .say "user_feedback" (some (o.text.getD "")) o.images],
     formatIntoToolResponse ("<answer>\n" ++ jsTemplate o.text ++ "\n</answer>")
       o.images)

/-- JavaScript truthiness of a `ToolResponse` (`if (commandResult)`): only the
empty string is falsy, a block array is always truthy. -/
def toolResponseTruthy : ToolResponse → Bool
  | .str s => s ≠ ""
  | .blocks _ => true

/-- `ClaudeDev.attemptCompletion` (src/unnamed/part_001, lines 963-992). -/
def attemptCompletion (env : ToolEnv) (result command : Option String) :
    List Event × ToolResponse :=
  match result with
  | none =>
      ([.say "error" (some ("Claude tried to use attempt_completion without value for required parameter 'result'. Retrying...")) none],
       .str (missingParamError "result"))
  | some result =>
    let commandPhase : List Event × Option ToolResponse × String :=
      if jsTruthy command then
        let sayEv : Event := .say "completion_result" (some result) none
        let (cmdEvs, commandResult) := executeCommand env command true
        if toolResponseTruthy commandResult then
          (sayEv :: cmdEvs, some commandResult, result)
        else
          (sayEv :: cmdEvs, none, "")
      else ([], none, result)
    match commandPhase with
    | (evs, some earlyResult, _) => (evs, earlyResult)
    | (evs, none, resultToSend) =>
      let o := env.askOutcome "completion_result"
      let askEv : Event := .ask "completion_result" (some resultToSend)
      if o.response = AskResponse.yesButtonTapped then
        (evs ++ [askEv], .str "")
      else
        (evs ++ [askEv, .say "user_feedback" (some (o.text.getD "")) o.images],
         formatIntoToolResponse
           ("The user is not pleased with the results. Use the feedback they provided to successfully complete the task, and then attempt completion again.\n<feedback>\n" ++
             jsTemplate o.text ++ "\n</feedback>")
           o.images)

/-- `ClaudeDev.executeTool` (src/unnamed/part_001, lines 461-482). The
`ToolName` cast in the source is an unchecked string cast, so tool names are
modelled as strings; the switch statement becomes an equality chain. -/
def executeTool (env : ToolEnv) (toolName : String) (toolInput : ToolInput)
    (isLastWriteToFile : Bool := false) : List Event × ToolResponse :=
  if toolName = "write_to_file" then
    writeToFile env toolInput.path toolInput.content isLastWriteToFile
  else if toolName = "read_file" then readFile env toolInput.path
  else if toolName = "list_files_top_level" then listFilesTopLevel env toolInput.path
  else if toolName = "list_files_recursive" then listFilesRecursive env toolInput.path
  else if toolName = "view_source_code_definitions_top_level" then
    viewSourceCodeDefinitionsTopLevel env toolInput.path
  else if toolName = "execute_command" then executeCommand env toolInput.command
  else if toolName = "ask_followup_question" then
    askFollowupQuestion env toolInput.question
  else if toolName = "attempt_completion" then
    attemptCompletion env toolInput.result toolInput.command
  else ([], .str ("Unknown tool: " ++ toolName))

theorem jsEndsWith_append (s t : String) : jsEndsWith (s ++ t) t = true := by
  simp [jsEndsWith, String.data_append]

theorem append_ne_empty_left (a b : String) (h : a ≠ "") : a ++ b ≠ "" := by
  intro hc
  apply h
  have hd := congrArg String.data hc
  rw [String.data_append] at hd
  simp at hd
  exact String.ext hd.1

/-- A concrete environment instantiating the executor theorems: every ask is
approved, every file exists with newline-terminated content. -/
def sampleEnv : ToolEnv where
  askOutcome := fun _ => ⟨.yesButtonTapped, none, none⟩
  fileExists := fun _ => true
  fileContent := fun _ => "hello\n"
  resolvePath := fun p => "/w/" ++ p
  readablePath := fun p => p
  baseName := fun p => p
  dirName := fun p => p
  createPatch := fun _ o n => "patch(" ++ o ++ "," ++ n ++ ")"
  diffLinesRepr := fun o n => "diff(" ++ o ++ "," ++ n ++ ")"
  listFilesResult := fun _ _ => []
  parseDefsResult := fun _ => ""
  localeCompare := fun _ _ => 0
  pathRelative := fun _ f => f
  commandOutcome := .completed ""
  ioError := none
  details := "d"

/-- A concrete environment whose asks are all answered with free-text
feedback. -/
def rejectEnv : ToolEnv :=
  { sampleEnv with
    askOutcome := fun _ => ⟨.messageResponse, some "please add tests", none⟩ }

/-- Claim C5: a missing required parameter short-circuits every tool
executor before any side effect — the trace holds exactly one error say
event (no ask, no filesystem access, no subprocess), and the result is the
machine-readable missing-parameter error string. -/
theorem missing_param_short_circuits (env : ToolEnv) (p : String)
    (c : Option String) (b : Bool) :
    writeToFile env none c b =
      ([.say "error" (some (missingParamSayText "write_to_file" "path")) none],
       .str (missingParamError "path")) ∧
    writeToFile env (some p) none b =
      ([.say "error" (some ("Claude tried to use write_to_file for '" ++ p ++
          "' without value for required parameter 'content'. This is likely due to output token limits. Retrying...")) none],
       .str (missingParamError "content")) ∧
    readFile env none =
      ([.say "error" (some (missingParamSayText "read_file" "path")) none],
       .str (missingParamError "path")) ∧
    listFilesTopLevel env none =
      ([.say "error" (some (missingParamSayText "list_files_top_level" "path")) none],
       .str (missingParamError "path")) ∧
    listFilesRecursive env none =
      ([.say "error" (some (missingParamSayText "list_files_recursive" "path")) none],
       .str (missingParamError "path")) ∧
    viewSourceCodeDefinitionsTopLevel env none =
      ([.say "error" (some (missingParamSayText "view_source_code_definitions_top_level"
          "path")) none],
       .str (missingParamError "path")) ∧
    executeCommand env none b =
      ([.say "error" (some (missingParamSayText "execute_command" "command")) none],
       .str (missingParamError "command")) ∧
    askFollowupQuestion env none =
      ([.say "error" (some (missingParamSayText "ask_followup_question" "question"))
          none],
       .str (missingParamError "question")) ∧
    attemptCompletion env none c =
      ([.say "error" (some ("Claude tried to use attempt_completion without value for required parameter 'result'. Retrying...")) none],
       .str (missingParamError "result")) :=
  ⟨rfl, rfl, rfl, rfl, rfl, rfl, rfl, rfl, rfl⟩

/-- Claim C9: a tool name outside the dispatch table falls through to the
default case — no events, no exception, just the plain unknown-tool string
as the tool result. -/
theorem executeTool_unknown_tool (env : ToolEnv) (toolName : String)
    (toolInput : ToolInput) (b : Bool)
    (hname : toolName ∉ ["write_to_file", "read_file", "list_files_top_level",
      "list_files_recursive", "view_source_code_definitions_top_level",
      "execute_command", "ask_followup_question", "attempt_completion"]) :
    executeTool env toolName toolInput b =
      ([], .str ("Unknown tool: " ++ toolName)) := by
  simp only [List.mem_cons, List.mem_singleton, not_or] at hname
  obtain ⟨h1, h2, h3, h4, h5, h6, h7, h8⟩ := hname
  simp [executeTool, h1, h2, h3, h4, h5, h6, h7, h8]

/-- Witness for C9 at a concrete unknown tool name. -/
theorem executeTool_unknown_tool_witness :
    ("browser_action" ∉ ["write_to_file", "read_file", "list_files_top_level",
      "list_files_recursive", "view_source_code_definitions_top_level",
      "execute_command", "ask_followup_question", "attempt_completion"]) ∧
    executeTool sampleEnv "browser_action" {} false =
      ([], .str ("Unknown tool: " ++ "browser_action")) :=
  ⟨by decide, executeTool_unknown_tool sampleEnv "browser_action" {} false (by decide)⟩

/-- The newline-adjusted content computed by `writeToFile` for an existing
file (src/unnamed/part_001, lines 533-536): the source appends a newline when
the original content ends with one and the proposed content does not. -/
def adjustedContent (env : ToolEnv) (relPath newContent0 : String) : String :=
  if jsEndsWith (env.fileContent (env.resolvePath relPath)) "\n" &&
      !jsEndsWith newContent0 "\n" then
    newContent0 ++ "\n"
  else newContent0

/-- Claim C10: overwriting an existing file whose content ends with a
newline uses the newline-adjusted content for the diff shown in the approval
ask, for the condensed patch in the result, and for the filesystem write, so
the approved overwrite leaves the file newline-terminated. -/
theorem writeToFile_preserves_trailing_newline (env : ToolEnv)
    (relPath newContent0 : String) (isLast : Bool)
    (hio : env.ioError = none)
    (hexists : env.fileExists (env.resolvePath relPath) = true)
    (hnl : jsEndsWith (env.fileContent (env.resolvePath relPath)) "\n" = true)
    (hyes : (env.askOutcome "tool").response = .yesButtonTapped) :
    writeToFile env (some relPath) (some newContent0) isLast =
      ([.showDiffView (env.baseName (env.resolvePath relPath) ++
          ": Original ↔ Suggested Changes"),
        .ask "tool" (some (serializeToolAsk "editedExistingFile"
          (env.readablePath relPath)
          (env.diffLinesRepr (env.fileContent (env.resolvePath relPath))
            (adjustedContent env relPath newContent0)))),
        .fsWrite (env.resolvePath relPath) (adjustedContent env relPath newContent0),
        .showTextDocument (env.resolvePath relPath)] ++
        (if isLast then [.closeDiffViews] else []),
       .str ("Changes applied to " ++ relPath ++ ":\n" ++
         env.createPatch (env.resolvePath relPath)
           (env.fileContent (env.resolvePath relPath))
           (adjustedContent env relPath newContent0))) ∧
    jsEndsWith (adjustedContent env relPath newContent0) "\n" = true := by
  constructor
  · simp [writeToFile, adjustedContent, hio, hexists, hyes]
  · unfold adjustedContent
    rw [hnl]
    cases hn : jsEndsWith newContent0 "\n" with
    | true => simpa using hn
    | false => simpa using jsEndsWith_append newContent0 "\n"

/-- Witness for C10 at a concrete overwrite of a newline-terminated file with
content missing its final newline. -/
theorem writeToFile_preserves_trailing_newline_witness :
    sampleEnv.ioError = none ∧
    sampleEnv.fileExists (sampleEnv.resolvePath "a.txt") = true ∧
    jsEndsWith (sampleEnv.fileContent (sampleEnv.resolvePath "a.txt")) "\n" = true ∧
    (sampleEnv.askOutcome "tool").response = .yesButtonTapped ∧
    ((writeToFile sampleEnv (some "a.txt") (some "x") true).1.filter
        (fun e => match e with | .fsWrite _ _ => true | _ => false) =
      [.fsWrite (sampleEnv.resolvePath "a.txt")
        (adjustedContent sampleEnv "a.txt" "x")]) ∧
    jsEndsWith (adjustedContent sampleEnv "a.txt" "x") "\n" = true := by
  have h := writeToFile_preserves_trailing_newline sampleEnv "a.txt" "x" true
    rfl rfl (by decide) rfl
  refine ⟨rfl, rfl, by decide, rfl, ?_, h.2⟩
  rw [h.1]
  decide

/-! ## The request round (src/unnamed/part_001, lines 1024-1195) -/

/-- The handling of the deferred `attempt_completion` result at the end of a
request round (src/unnamed/part_001, lines 1148-1164): an empty string result
ends the loop and is replaced by a fixed confirmation before being pushed as
the block's tool result. -/
def processAttemptCompletionResult (acId : String) (acResult : ToolResponse)
    (toolResults : List ContentBlock) : Bool × List ContentBlock :=
  if acResult = ToolResponse.str "" then
    (true,
     toolResults ++ [.toolResult acId (.str "The user is satisfied with the result.")])
  else
    (false, toolResults ++ [.toolResult acId acResult])

/-- Whether a request round feeds its tool results back as another provider
turn (src/unnamed/part_001, lines 1166-1188): results present and the loop
not ended. -/
def triggersAnotherTurn (toolResults : List ContentBlock) (didEndLoop : Bool) : Bool :=
  toolResults.length > 0 && !didEndLoop

/-- The feedback wrapper returned by `attemptCompletion` on rejection
(src/unnamed/part_001, lines 988-991). -/
def completionFeedbackText (feedback : Option String) : String :=
  "The user is not pleased with the results. Use the feedback they provided to successfully complete the task, and then attempt completion again.\n<feedback>\n" ++
    jsTemplate feedback ++ "\n</feedback>"

/-- Claim C2: for `attempt_completion` with a defined result and no command,
approval yields the empty tool-result string and sets `didEndLoop`;
rejection with feedback yields a non-empty response embedding the feedback,
which is pushed as the block's tool result and triggers another turn. -/
theorem attemptCompletion_completion_verdict (env : ToolEnv)
    (result acId fb : String) (toolResults : List ContentBlock) :
    ((env.askOutcome "completion_result").response = .yesButtonTapped →
      (attemptCompletion env (some result) none).2 = .str "" ∧
      (processAttemptCompletionResult acId
        (attemptCompletion env (some result) none).2 toolResults).1 = true) ∧
    ((env.askOutcome "completion_result").response = .messageResponse →
      (env.askOutcome "completion_result").text = some fb →
      (attemptCompletion env (some result) none).2 =
        formatIntoToolResponse (completionFeedbackText (some fb))
          (env.askOutcome "completion_result").images ∧
      toolResponseTruthy (attemptCompletion env (some result) none).2 = true ∧
      (processAttemptCompletionResult acId
        (attemptCompletion env (some result) none).2 toolResults).1 = false ∧
      (processAttemptCompletionResult acId
        (attemptCompletion env (some result) none).2 toolResults).2 =
        toolResults ++ [.toolResult acId (attemptCompletion env (some result) none).2] ∧
      triggersAnotherTurn (processAttemptCompletionResult acId
        (attemptCompletion env (some result) none).2 toolResults).2 false = true) := by
  constructor
  · intro hyes
    have hres : (attemptCompletion env (some result) none).2 = .str "" := by
      simp [attemptCompletion, jsTruthy, hyes]
    exact ⟨hres, by simp [processAttemptCompletionResult, hres]⟩
  · intro hmsg htext
    have hres : (attemptCompletion env (some result) none).2 =
        formatIntoToolResponse (completionFeedbackText (some fb))
          (env.askOutcome "completion_result").images := by
      simp [attemptCompletion, jsTruthy, hmsg, completionFeedbackText, htext,
        jsTemplate]
    have htruthy : toolResponseTruthy
        (formatIntoToolResponse (completionFeedbackText (some fb))
          (env.askOutcome "completion_result").images) = true := by
      have hne : completionFeedbackText (some fb) ≠ "" := by
        unfold completionFeedbackText
        rw [String.append_assoc]
        exact append_ne_empty_left _ _ (by decide)
      unfold formatIntoToolResponse
      match (env.askOutcome "completion_result").images with
      | none => simpa [toolResponseTruthy] using hne
      | some imgs =>
        by_cases himgs : imgs.length > 0
        · simp [himgs, toolResponseTruthy]
        · simpa [himgs, toolResponseTruthy] using hne
    have hnotempty : (attemptCompletion env (some result) none).2 ≠ .str "" := by
      rw [hres]
      intro hc
      rw [hc] at htruthy
      simp [toolResponseTruthy] at htruthy
    refine ⟨hres, by rw [hres]; exact htruthy, ?_, ?_, ?_⟩
    · simp [processAttemptCompletionResult, hnotempty]
    · simp [processAttemptCompletionResult, hnotempty]
    · simp [processAttemptCompletionResult, hnotempty, triggersAnotherTurn]

/-- Witness for C2: the approval verdict at one concrete environment and the
feedback verdict at another. -/
theorem attemptCompletion_completion_verdict_witness :
    ((sampleEnv.askOutcome "completion_result").response = .yesButtonTapped ∧
      (attemptCompletion sampleEnv (some "done") none).2 = .str "") ∧
    ((rejectEnv.askOutcome "completion_result").response = .messageResponse ∧
      (rejectEnv.askOutcome "completion_result").text = some "please add tests" ∧
      toolResponseTruthy (attemptCompletion rejectEnv (some "done") none).2 = true) := by
  refine ⟨⟨rfl, ?_⟩, rfl, rfl, ?_⟩
  · exact ((attemptCompletion_completion_verdict sampleEnv "done" "id" "x" []).1 rfl).1
  · exact (((attemptCompletion_completion_verdict rejectEnv "done" "id"
      "please add tests" []).2 rfl) rfl).2.1

/-- Outcome of the request-limit gate: either the round proceeds with a
(possibly reset) request counter, or it ends with `didEndLoop`. -/
inductive GateOutcome
  | proceed (requestCount : Nat) (history : List MessageParam)
  | ended (history : List MessageParam)
deriving DecidableEq

/-- The question text of the `request_limit_reached` ask
(src/unnamed/part_001, line 1033). -/
def requestLimitAskText : String :=
  "ONE has reached the maximum number of requests for this task. Would you like to reset the count and allow him to proceed?"

/-- The terminal assistant message appended when the user declines to reset
the request counter (src/unnamed/part_001, line 1044). -/
def requestLimitFailureText : String :=
  "Failure: I have reached the request limit for this task. Do you have a new task for me?"

/-- The request-limit gate at the head of `recursivelyMakeClaudeRequests`
(src/unnamed/part_001, lines 1029-1050): append the user content to history;
at or above the ceiling, ask `request_limit_reached` — acceptance resets the
counter to 0, anything else appends the terminal assistant message and ends
the loop. -/
def requestLimitGate (history : List MessageParam) (userContent : List ContentBlock)
    (requestCount maxRequestsPerTask : Nat) (askResp : AskResponse) :
    List Event × GateOutcome :=
  let history := history ++ [⟨.user, .blocks userContent⟩]
  if requestCount ≥ maxRequestsPerTask then
    if askResp = .yesButtonTapped then
      ([.ask "request_limit_reached" (some requestLimitAskText)], .proceed 0 history)
    else
      ([.ask "request_limit_reached" (some requestLimitAskText)],
       .ended (history ++ [⟨.assistant, .blocks [.text requestLimitFailureText]⟩]))
  else
    ([], .proceed requestCount history)

/-- The request phase of one round (src/unnamed/part_001, lines 1024-1061):
the gate, then — only if the round survives — the `api_req_started` log (its
JSON payload is produced by the external api handler and not modelled), the
provider call, and the counter increment performed after the call returns. -/
structure RequestPhaseResult where
  events : List Event
  didEndLoop : Bool
  requestCount : Nat
  history : List MessageParam
deriving DecidableEq

/-- The request phase of one round, assembled from the gate. -/
def requestPhase (history : List MessageParam) (userContent : List ContentBlock)
    (requestCount maxRequestsPerTask : Nat) (askResp : AskResponse) :
    RequestPhaseResult :=
  match requestLimitGate history userContent requestCount maxRequestsPerTask askResp with
  | (gateEvs, .ended h) => ⟨gateEvs, true, requestCount, h⟩
  | (gateEvs, .proceed rc h) =>
      ⟨gateEvs ++ [.say "api_req_started" none none, .createMessageCall],
       false, rc + 1, h⟩

/-- Claim C3: at or above the request ceiling the `request_limit_reached`
ask is the first event (hence before any provider call); acceptance resets
the counter to 0 and a provider call occurs; anything else appends the
terminal assistant message, returns `didEndLoop = true` and performs no
provider call. -/
theorem requestLimit_gate_spec (history : List MessageParam)
    (userContent : List ContentBlock) (rc maxR : Nat) (askResp : AskResponse)
    (hlim : rc ≥ maxR) :
    (requestPhase history userContent rc maxR askResp).events.head? =
      some (.ask "request_limit_reached" (some requestLimitAskText)) ∧
    (askResp = .yesButtonTapped →
      requestLimitGate history userContent rc maxR askResp =
        ([.ask "request_limit_reached" (some requestLimitAskText)],
         .proceed 0 (history ++ [⟨.user, .blocks userContent⟩])) ∧
      Event.createMessageCall ∈ (requestPhase history userContent rc maxR askResp).events) ∧
    (askResp ≠ .yesButtonTapped →
      (requestPhase history userContent rc maxR askResp).didEndLoop = true ∧
      Event.createMessageCall ∉ (requestPhase history userContent rc maxR askResp).events ∧
      (requestPhase history userContent rc maxR askResp).history.getLast? =
        some ⟨.assistant, .blocks [.text requestLimitFailureText]⟩) := by
  by_cases hresp : askResp = .yesButtonTapped
  · refine ⟨?_, fun _ => ⟨?_, ?_⟩, fun hne => absurd hresp hne⟩
    · simp [requestPhase, requestLimitGate, hlim, hresp]
    · simp [requestLimitGate, hlim, hresp]
    · simp [requestPhase, requestLimitGate, hlim, hresp]
  · refine ⟨?_, fun heq => absurd heq hresp, fun _ => ⟨?_, ?_, ?_⟩⟩
    · simp [requestPhase, requestLimitGate, hlim, hresp]
    · simp [requestPhase, requestLimitGate, hlim, hresp]
    · simp [requestPhase, requestLimitGate, hlim, hresp]
    · simp [requestPhase, requestLimitGate, hlim, hresp, List.getLast?_concat]

/-- Witness for C3 at the ceiling with a declining user. -/
theorem requestLimit_gate_spec_witness :
    (1 ≥ 1) ∧
    ((requestPhase [] [] 1 1 .noButtonTapped).didEndLoop = true ∧
      Event.createMessageCall ∉ (requestPhase [] [] 1 1 .noButtonTapped).events ∧
      (requestPhase [] [] 1 1 .noButtonTapped).history.getLast? =
        some ⟨.assistant, .blocks [.text requestLimitFailureText]⟩) :=
  ⟨Nat.le_refl 1,
   (requestLimit_gate_spec [] [] 1 1 .noButtonTapped (Nat.le_refl 1)).2.2 (by decide)⟩

/-- One round's tool-use interpretation (src/unnamed/part_001,
lines 1100-1131): walk the response content in order, execute every
non-`attempt_completion` tool use immediately (recorded as a (name, id)
pair), and remember only the most recent `attempt_completion` block for
deferred execution. -/
def interpretToolUses (content : List ContentBlock) :
    List (String × String) × Option String :=
  content.foldl
    (fun acc block =>
      match block with
      | .toolUse id name _ =>
          if name = "attempt_completion" then (acc.1, some id)
          else (acc.1 ++ [(name, id)], acc.2)
      | _ => acc)
    ([], none)

/-- The full execution order of one round: the loop body followed by the
deferred `attempt_completion` execution (src/unnamed/part_001,
lines 1144-1164). -/
def executionOrder (content : List ContentBlock) : List (String × String) :=
  match interpretToolUses content with
  | (execs, some acId) => execs ++ [("attempt_completion", acId)]
  | (execs, none) => execs

/-- The non-`attempt_completion` tool uses of a response, in order. -/
def nonCompletionToolUses (content : List ContentBlock) : List (String × String) :=
  content.filterMap fun b =>
    match b with
    | .toolUse id name _ =>
        if name = "attempt_completion" then none else some (name, id)
    | _ => none

/-- The id of the last `attempt_completion` block of a response, if any. -/
def lastCompletionId : List ContentBlock → Option String
  | [] => none
  | b :: bs =>
    match lastCompletionId bs with
    | some id => some id
    | none =>
      match b with
      | .toolUse id name _ => if name = "attempt_completion" then some id else none
      | _ => none

theorem interpretToolUses_foldl (content : List ContentBlock)
    (execs0 : List (String × String)) (ac0 : Option String) :
    content.foldl
      (fun acc block =>
        match block with
        | .toolUse id name _ =>
            if name = "attempt_completion" then (acc.1, some id)
            else (acc.1 ++ [(name, id)], acc.2)
        | _ => acc)
      (execs0, ac0) =
    (execs0 ++ nonCompletionToolUses content,
     match lastCompletionId content with
     | some id => some id
     | none => ac0) := by
  induction content generalizing execs0 ac0 with
  | nil => simp [nonCompletionToolUses, lastCompletionId]
  | cons b bs ih =>
    cases b with
    | toolUse id name input =>
      by_cases hname : name = "attempt_completion"
      · rw [List.foldl_cons]
        simp only [hname, if_pos rfl]
        rw [ih]
        simp only [nonCompletionToolUses, List.filterMap_cons, hname]
        cases hlast : lastCompletionId bs with
        | some j => simp [lastCompletionId, hlast, nonCompletionToolUses]
        | none => simp [lastCompletionId, hlast, nonCompletionToolUses]
      · rw [List.foldl_cons]
        simp only [hname, if_neg hname]
        rw [ih]
        simp only [nonCompletionToolUses, List.filterMap_cons, hname]
        cases hlast : lastCompletionId bs with
        | some j => simp [lastCompletionId, hlast, nonCompletionToolUses, hname]
        | none => simp [lastCompletionId, hlast, nonCompletionToolUses, hname]
    | text t =>
      rw [List.foldl_cons]
      rw [ih]
      simp only [nonCompletionToolUses, List.filterMap_cons]
      cases hlast : lastCompletionId bs with
      | some j => simp [lastCompletionId, hlast, nonCompletionToolUses]
      | none => simp [lastCompletionId, hlast, nonCompletionToolUses]
    | image m d =>
      rw [List.foldl_cons]
      rw [ih]
      simp only [nonCompletionToolUses, List.filterMap_cons]
      cases hlast : lastCompletionId bs with
      | some j => simp [lastCompletionId, hlast, nonCompletionToolUses]
      | none => simp [lastCompletionId, hlast, nonCompletionToolUses]
    | toolResult rid c =>
      rw [List.foldl_cons]
      rw [ih]
      simp only [nonCompletionToolUses, List.filterMap_cons]
      cases hlast : lastCompletionId bs with
      | some j => simp [lastCompletionId, hlast, nonCompletionToolUses]
      | none => simp [lastCompletionId, hlast, nonCompletionToolUses]

theorem interpretToolUses_eq (content : List ContentBlock) :
    interpretToolUses content =
      (nonCompletionToolUses content, lastCompletionId content) := by
  unfold interpretToolUses
  rw [interpretToolUses_foldl]
  cases h : lastCompletionId content <;> simp [h]

theorem nonCompletionToolUses_no_ac (content : List ContentBlock) :
    (nonCompletionToolUses content).filter
      (fun e => e.1 = "attempt_completion") = [] := by
  apply List.filter_eq_nil_iff.2
  intro e he
  simp only [nonCompletionToolUses, List.mem_filterMap] at he
  obtain ⟨b, _, hb⟩ := he
  cases b with
  | toolUse id name input =>
    by_cases hname : name = "attempt_completion"
    · simp [hname] at hb
    · simp only [if_neg hname] at hb
      obtain rfl := Option.some.inj hb
      simpa using hname
  | text t => simp at hb
  | image m d => simp at hb
  | toolResult rid c => simp at hb

/-- Counterexample to claim C4 as stated: a response with two
`attempt_completion` blocks identifies only the last one; the first is a
tool_use block of the response that is never executed, so the deferred block
does not run after every other tool_use block has been executed. -/
theorem executionOrder_claim_false :
    executionOrder
        [ContentBlock.toolUse "toolu_1" "attempt_completion" {},
         ContentBlock.toolUse "toolu_2" "read_file" {},
         ContentBlock.toolUse "toolu_3" "attempt_completion" {}] =
      [("read_file", "toolu_2"), ("attempt_completion", "toolu_3")] ∧
    ContentBlock.toolUse "toolu_1" "attempt_completion" {} ∈
      [ContentBlock.toolUse "toolu_1" "attempt_completion" {},
       ContentBlock.toolUse "toolu_2" "read_file" {},
       ContentBlock.toolUse "toolu_3" "attempt_completion" {}] ∧
    ("attempt_completion", "toolu_1") ∉
      executionOrder
        [ContentBlock.toolUse "toolu_1" "attempt_completion" {},
         ContentBlock.toolUse "toolu_2" "read_file" {},
         ContentBlock.toolUse "toolu_3" "attempt_completion" {}] := by
  decide

/-- Claim C4 (amended): at most one `attempt_completion` block is identified
(the last one, when several appear; earlier ones are never executed), every
non-`attempt_completion` tool use executes sequentially in response order,
and the identified block's execution is deferred until after all of them,
regardless of its position. -/
theorem executionOrder_defers_attempt_completion (content : List ContentBlock) :
    executionOrder content =
      nonCompletionToolUses content ++
        (match lastCompletionId content with
         | some id => [("attempt_completion", id)]
         | none => []) ∧
    ((executionOrder content).filter (fun e => e.1 = "attempt_completion")).length ≤ 1 ∧
    (∀ id, lastCompletionId content = some id →
      (executionOrder content).getLast? = some ("attempt_completion", id)) := by
  have heq : executionOrder content =
      nonCompletionToolUses content ++
        (match lastCompletionId content with
         | some id => [("attempt_completion", id)]
         | none => []) := by
    unfold executionOrder
    rw [interpretToolUses_eq]
    cases h : lastCompletionId content <;> simp
  refine ⟨heq, ?_, ?_⟩
  · rw [heq, List.filter_append, List.length_append]
    rw [nonCompletionToolUses_no_ac]
    cases h : lastCompletionId content <;> simp
  · intro id hid
    rw [heq, hid]
    exact List.getLast?_concat _

/-! ## Context-overflow guard (src/src/ClaudeDev.ts, lines 1336-1359) -/

/-- Usage counts recorded in the text of the last `api_req_finished` display
event (parsed from its JSON payload). -/
structure UsageInfo where
  tokensIn : Option ℚ := none
  tokensOut : Option ℚ := none
  cacheWrites : Option ℚ := none
  cacheReads : Option ℚ := none
deriving DecidableEq

/-- `totalTokens` (src/src/ClaudeDev.ts, line 1347): `(tokensIn || 0) +
(tokensOut || 0) + (cacheWrites || 0) + (cacheReads || 0)`; for these numeric
counters JavaScript `|| 0` maps both `undefined` and `0` to `0`. -/
def totalTokens (u : UsageInfo) : ℚ :=
  u.tokensIn.getD 0 + u.tokensOut.getD 0 + u.cacheWrites.getD 0 + u.cacheReads.getD 0

/-- `maxAllowedSize` (src/src/ClaudeDev.ts, line 1349):
`Math.max(contextWindow - 40_000, contextWindow * 0.8)`. -/
def maxAllowedSize (contextWindow : ℚ) : ℚ :=
  max (contextWindow - 40000) (contextWindow * 0.8)

/-- Modelled from the spec: `truncateHalfConversation` is imported by
src/src/ClaudeDev.ts but its body is not among this repository's source
files; the spec says the guard must "truncate the oldest half of conversation
history", so the oldest half of the messages is dropped. -/
def truncateHalfConversation (hist : List MessageParam) : List MessageParam :=
  hist.drop (hist.length / 2)

/-- The context-overflow guard of `attemptApiRequest`
(src/src/ClaudeDev.ts, lines 1336-1359): when the last recorded usage total
reaches the high-water mark, the truncated history is persisted
(`overwriteApiConversationHistory`) before the provider call; the result is
the event trace paired with the history actually sent. -/
def attemptApiRequestGuard (hist : List MessageParam)
    (lastApiReqFinished : Option UsageInfo) (contextWindow : ℚ) :
    List Event × List MessageParam :=
  match lastApiReqFinished with
  | some u =>
      if totalTokens u ≥ maxAllowedSize contextWindow then
        ([.persistApiHistory (truncateHalfConversation hist), .createMessageCall],
         truncateHalfConversation hist)
      else
        ([.createMessageCall], hist)
  | none => ([.createMessageCall], hist)

/-- Counterexample to claim C7 as stated: with a usage total exactly equal to
the high-water mark — so not exceeding it — the guard still truncates and
persists rather than sending the two-message history unchanged: the trigger
comparison in the code is `>=`, not `>`. -/
theorem context_guard_claim_false :
    totalTokens ⟨some 160000, none, none, none⟩ = maxAllowedSize 200000 ∧
    ¬ totalTokens ⟨some 160000, none, none, none⟩ > maxAllowedSize 200000 ∧
    attemptApiRequestGuard [⟨.user, .str "a"⟩, ⟨.assistant, .str "b"⟩]
        (some ⟨some 160000, none, none, none⟩) 200000 =
      ([.persistApiHistory [⟨.assistant, .str "b"⟩], .createMessageCall],
       [⟨.assistant, .str "b"⟩]) ∧
    (attemptApiRequestGuard [⟨.user, .str "a"⟩, ⟨.assistant, .str "b"⟩]
        (some ⟨some 160000, none, none, none⟩) 200000).2 ≠
      [⟨.user, .str "a"⟩, ⟨.assistant, .str "b"⟩] := by
  have ht : totalTokens ⟨some 160000, none, none, none⟩ = 160000 := by
    norm_num [totalTokens]
  have hm : maxAllowedSize 200000 = 160000 := by
    norm_num [maxAllowedSize]
  have hguard : attemptApiRequestGuard [⟨.user, .str "a"⟩, ⟨.assistant, .str "b"⟩]
      (some ⟨some 160000, none, none, none⟩) 200000 =
      ([.persistApiHistory [⟨.assistant, .str "b"⟩], .createMessageCall],
       [⟨.assistant, .str "b"⟩]) := by
    simp [attemptApiRequestGuard, ht, hm, truncateHalfConversation]
  refine ⟨by rw [ht, hm], by rw [ht, hm]; norm_num, hguard, ?_⟩
  rw [hguard]
  simp

/-- Claim C7 (amended): the conversation history is truncated by removing the
oldest half and persisted before the provider call exactly when the last
recorded usage total is at or above the high-water mark
`max(contextWindow − 40000, contextWindow × 0.8)`; strictly below it the
history is sent unchanged. -/
theorem context_guard_triggers_at_high_water
    (hist hist2 : List MessageParam) (u u2 : UsageInfo) (cw cw2 : ℚ)
    (hge : totalTokens u ≥ maxAllowedSize cw)
    (hlt : totalTokens u2 < maxAllowedSize cw2) :
    attemptApiRequestGuard hist (some u) cw =
      ([.persistApiHistory (truncateHalfConversation hist), .createMessageCall],
       truncateHalfConversation hist) ∧
    attemptApiRequestGuard hist2 (some u2) cw2 = ([.createMessageCall], hist2) := by
  constructor
  · simp [attemptApiRequestGuard, hge]
  · simp [attemptApiRequestGuard, not_le.2 hlt]

/-- Witness for C7 (amended) at a concrete over-threshold usage and a
concrete under-threshold usage. -/
theorem context_guard_triggers_at_high_water_witness :
    totalTokens ⟨some 170000, none, none, none⟩ ≥ maxAllowedSize 200000 ∧
    totalTokens ⟨some 100, none, none, none⟩ < maxAllowedSize 200000 ∧
    attemptApiRequestGuard [⟨.user, .str "a"⟩, ⟨.assistant, .str "b"⟩]
        (some ⟨some 170000, none, none, none⟩) 200000 =
      ([.persistApiHistory (truncateHalfConversation
          [⟨.user, .str "a"⟩, ⟨.assistant, .str "b"⟩]), .createMessageCall],
       truncateHalfConversation [⟨.user, .str "a"⟩, ⟨.assistant, .str "b"⟩]) ∧
    attemptApiRequestGuard [⟨.user, .str "a"⟩] (some ⟨some 100, none, none, none⟩)
        200000 =
      ([.createMessageCall], [⟨.user, .str "a"⟩]) := by
  have h1 : totalTokens ⟨some 170000, none, none, none⟩ ≥ maxAllowedSize 200000 := by
    norm_num [totalTokens, maxAllowedSize]
  have h2 : totalTokens ⟨some 100, none, none, none⟩ < maxAllowedSize 200000 := by
    norm_num [totalTokens, maxAllowedSize]
  have h := context_guard_triggers_at_high_water
    [⟨.user, .str "a"⟩, ⟨.assistant, .str "b"⟩] [⟨.user, .str "a"⟩]
    ⟨some 170000, none, none, none⟩ ⟨some 100, none, none, none⟩ 200000 200000 h1 h2
  exact ⟨h1, h2, h.1, h.2⟩

/-! ## The blocking ask primitive (src/unnamed/part_001, lines 182-205) -/

/-- The mutable fields the `ask` primitive waits on. -/
structure AskState where
  lastMessageTs : Option Nat
  askResponse : Option AskResponse
  askResponseText : Option String
  askResponseImages : Option (List String)
deriving DecidableEq

/-- The setup phase of `ClaudeDev.ask` (src/unnamed/part_001,
lines 189-195): clear any previous response and record this ask's timestamp
in `lastMessageTs`. -/
def askSetup (s : AskState) (askTs : Nat) : AskState :=
  { s with
    askResponse := none, askResponseText := none, askResponseImages := none,
    lastMessageTs := some askTs }

/-- The resolution phase of `ClaudeDev.ask` (src/unnamed/part_001,
lines 196-205), entered once the `pWaitFor` condition fires, i.e. once a
response has been set or a newer message's timestamp has replaced
`lastMessageTs`. A stale timestamp throws the superseded error; the
no-response branch is unreachable under the `pWaitFor` condition and marked
as such. -/
def askResolve (askTs : Nat) (s : AskState) : Except String AskOutcome :=
  if s.lastMessageTs ≠ some askTs then
    .error "Current ask promise was ignored"
  else
    match s.askResponse with
    | some r => .ok ⟨r, s.askResponseText, s.askResponseImages⟩
    | none => .error "unreachable under the pWaitFor condition"

/-- Claim C8: `ask` records its own timestamp as `lastMessageTs` and waits
until a response is set or the timestamp changes; resolving with a changed
timestamp fails with the superseded error, and resolving with an unchanged
timestamp returns exactly the recorded response. -/
theorem ask_superseded_or_returns_response (s0 s1 : AskState) (askTs : Nat)
    (r : AskResponse)
    (_hwait : s1.askResponse.isSome ∨ s1.lastMessageTs ≠ some askTs) :
    (askSetup s0 askTs).lastMessageTs = some askTs ∧
    (s1.lastMessageTs ≠ some askTs →
      askResolve askTs s1 = .error "Current ask promise was ignored") ∧
    (s1.lastMessageTs = some askTs → s1.askResponse = some r →
      askResolve askTs s1 = .ok ⟨r, s1.askResponseText, s1.askResponseImages⟩) := by
  refine ⟨rfl, ?_, ?_⟩
  · intro hne
    simp [askResolve, hne]
  · intro heq hresp
    simp [askResolve, heq, hresp]

/-- Witness for C8 at a concrete stale ask: timestamp 5 was superseded by a
newer message at timestamp 7. -/
theorem ask_superseded_or_returns_response_witness :
    ((⟨some 7, none, none, none⟩ : AskState).askResponse.isSome ∨
      (⟨some 7, none, none, none⟩ : AskState).lastMessageTs ≠ some 5) ∧
    (⟨some 7, none, none, none⟩ : AskState).lastMessageTs ≠ some 5 ∧
    askResolve 5 ⟨some 7, none, none, none⟩ =
      .error "Current ask promise was ignored" := by
  refine ⟨Or.inr (by decide), by decide, ?_⟩
  exact (ask_superseded_or_returns_response ⟨none, none, none, none⟩
    ⟨some 7, none, none, none⟩ 5 .yesButtonTapped (Or.inr (by decide))).2.1 (by decide)

/-- Witness for C6 at a concrete 1001-entry listing and a concrete
empty mapped entry. -/
theorem formatFilesList_truncation_and_empty_witness :
    ((List.range 1001).map (fun n => toString n)).length > 1000 ∧
      toRelativeEntry (fun _ => "") "dir" = "" ∧
      (formatFilesList (fun _ _ => 0) (fun _ => "")
          ((List.range 1001).map (fun n => toString n)) =
        String.intercalate "\n"
            ((sortedEntries (fun _ _ => 0) (fun _ => "")
              ((List.range 1001).map (fun n => toString n))).take 1000) ++
          truncationNotice (((List.range 1001).map (fun n => toString n)).length - 1000) ∧
        formatFilesList (fun _ _ => 0) (fun _ => "") [] = noFilesMessage ∧
        formatFilesList (fun _ _ => 0) (fun _ => "") ["dir"] = noFilesMessage) := by
  have h1 : ((List.range 1001).map (fun n => toString n)).length > 1000 := by simp
  have h2 : toRelativeEntry (fun _ => "") "dir" = "" := by decide
  have h := formatFilesList_truncation_and_empty (fun _ _ => 0) (fun _ => "")
    ((List.range 1001).map (fun n => toString n)) "dir" h1 h2
  exact ⟨h1, h2, h.1.1, h.2.1, h.2.2⟩

end ClaudeDev
